import Mathlib

/-!
Shallow embedding of the computational core of `src/app.py` (an OHLCV
indicator + trade-plan engine) over exact rationals.  Python floats are
modelled by `ℚ`; `float('nan')` never arises in the modelled paths because
pandas `NaN` cells produced by short rolling windows are modelled as
`Option.none` instead.  Python's `round` (banker's rounding, half to even)
is modelled exactly by `pyRound`; Python's `int()` truncation toward zero
by `pyInt`.
-/

set_option maxHeartbeats 1000000

namespace StockApp

/-- One cleaned row of the price frame after the column renaming at
`app.py` lines 106-113: columns `high`, `low`, `close`, `vol`, `amount`. -/
structure Bar where
  high : ℚ
  low : ℚ
  close : ℚ
  vol : ℚ
  amount : ℚ
deriving DecidableEq, Repr

instance : Inhabited Bar := ⟨⟨0, 0, 0, 0, 0⟩⟩

/-- `safe_float` (line 33): a missing value (`None`, here `none`) maps to the
default `0.0`; a present numeric value is returned unchanged. -/
def safe_float : Option ℚ → ℚ
  | none => 0
  | some q => q

/-- `tick_size` (lines 39-45): exchange tick as a step function of price. -/
def tick_size (p : ℚ) : ℚ :=
  if 1000 ≤ p then 5
  else if 500 ≤ p then 1
  else if 100 ≤ p then 1/2
  else if 50 ≤ p then 1/10
  else if 10 ≤ p then 1/100
  else 1/1000

/-- Python's built-in `round` to an integer: nearest integer, ties to even. -/
def pyRound (q : ℚ) : ℤ :=
  if q - ⌊q⌋ < 1/2 then ⌊q⌋
  else if (1/2 : ℚ) < q - ⌊q⌋ then ⌊q⌋ + 1
  else if ⌊q⌋ % 2 = 0 then ⌊q⌋ else ⌊q⌋ + 1

/-- Python's `int()` applied to a float: truncation toward zero. -/
def pyInt (q : ℚ) : ℤ :=
  if 0 ≤ q then ⌊q⌋ else -⌊-q⌋

/-- `round_to_tick` (lines 47-49).  The `np.isnan` guard has no rational
counterpart (no `NaN` exists in the modelled paths); the `t == 0` guard is
kept. -/
def round_to_tick (x t : ℚ) : ℚ :=
  if t = 0 then 0 else (pyRound (x / t) : ℚ) * t

/-- Line 114: `df = df[df['vol'] > 0]` — zero-volume rows are dropped
before any indicator is computed. -/
def filterBars (xs : List Bar) : List Bar :=
  xs.filter (fun b => decide (0 < b.vol))

/-- Sum of the trailing window of width `w` ending at index `i`
(the values `xs[i+1-w] … xs[i]`). -/
def windowSum (xs : List ℚ) (w i : Nat) : ℚ :=
  ((xs.take (i + 1)).drop (i + 1 - w)).sum

/-- `Series.rolling(w).mean()` at index `i`: `none` (pandas `NaN`) while the
window is not yet full, otherwise the arithmetic mean of the last `w`
values. -/
def rollingMean (xs : List ℚ) (w i : Nat) : Option ℚ :=
  if w = 0 then none
  else if i + 1 < w then none
  else some (windowSum xs w i / w)

/-- Line 122: `df["MA20"] = df["close"].rolling(min(20, len(df))).mean()`
(the window `win = min(20, len(df))` is shared with the volume and amount
averages, line 121). -/
def MA20 (df : List Bar) (i : Nat) : Option ℚ :=
  rollingMean (df.map Bar.close) (min 20 df.length) i

/-- Line 123: `df["MA20_Vol"]`, rolling mean of `vol` with window
`min(20, len(df))`. -/
def MA20_Vol (df : List Bar) (i : Nat) : Option ℚ :=
  rollingMean (df.map Bar.vol) (min 20 df.length) i

/-- Line 124: `df["MA20_Amount"] = (df["amount"]/1e8).rolling(win).mean()`. -/
def MA20_Amount (df : List Bar) (i : Nat) : Option ℚ :=
  rollingMean (df.map (fun b => b.amount / 100000000)) (min 20 df.length) i

/-- Line 125: `df["ATR14"] = (df["high"] - df["low"]).rolling(min(14,
len(df))).mean()` — a plain arithmetic rolling mean of the bar range
`high - low`. -/
def ATR14 (df : List Bar) (i : Nat) : Option ℚ :=
  rollingMean (df.map (fun b => b.high - b.low)) (min 14 df.length) i

/-- The sign factor `np.where(diff > 0, 1, np.where(diff < 0, -1, 0))`
of line 126 (`np.nan` compares false on both sides, giving 0 for the
first row). -/
def sign3 (q : ℚ) : ℚ :=
  if 0 < q then 1 else if q < 0 then -1 else 0

/-- Tail of the cumulative OBV sum: `pc` is the previous close, `acc` the
accumulated OBV so far. -/
def obvAux (pc acc : ℚ) : List Bar → List ℚ
  | [] => []
  | b :: rest =>
      (acc + sign3 (b.close - pc) * b.vol) ::
        obvAux b.close (acc + sign3 (b.close - pc) * b.vol) rest

/-- Line 126: `df['OBV'] = (sign(close.diff()) * df['vol']).cumsum()`.
The first row's `diff()` is `NaN`, whose sign factor is 0, so the series
starts at 0. -/
def OBV : List Bar → List ℚ
  | [] => []
  | b :: rest => 0 :: obvAux b.close 0 rest

/-- Line 127: `df['OBV_MA10'] = df['OBV'].rolling(min(10, len(df))).mean()`. -/
def OBV_MA10 (df : List Bar) (i : Nat) : Option ℚ :=
  rollingMean (OBV df) (min 10 df.length) i

/-- `Series.tail(n)`: the last `min n (length)` elements. -/
def tailN (n : Nat) (xs : List α) : List α :=
  xs.drop (xs.length - n)

/-- `Series.max()` of a nonempty column (0 is junk for the empty case,
which the engine never reaches). -/
def colMax : List ℚ → ℚ
  | [] => 0
  | x :: xs => xs.foldl max x

/-- Line 206: `pivot = float(df.tail(252)["high"].max())` — the highest
high of the trailing 252 (volume-filtered) bars. -/
def pivot (df : List Bar) : ℚ :=
  colMax ((tailN 252 df).map Bar.high)

/-- `hist_last.get("ATR14")` as evaluated at line 256.  `hist_last` is
extracted with `df.iloc[-1]` at line 116, *before* the indicator columns
are attached at lines 121-127; `iloc` row extraction yields a copy, so the
row has no `ATR14` key and `.get` returns `None`. -/
def hist_last_get_ATR14 : Option ℚ := none

/-- `hist_last.get("MA20")` as evaluated at line 185: `None`, for the same
reason as `hist_last_get_ATR14` (the row predates the `MA20` column). -/
def hist_last_get_MA20 : Option ℚ := none

/-- Line 256: `atr = max(safe_float(hist_last.get("ATR14")),
current_price * 0.025)` — the volatility figure every plan price and lot
count is computed from.  Because the row read is `None` (see
`hist_last_get_ATR14`), this is `max 0 (0.025 * cp)` at runtime. -/
def atr_used (cp : ℚ) : ℚ :=
  max (safe_float hist_last_get_ATR14) (cp * 0.025)

/-- Line 185: `ma20_val = safe_float(hist_last.get("MA20"))` — always 0 at
runtime (see `hist_last_get_MA20`). -/
def ma20_val : ℚ := safe_float hist_last_get_MA20

/-- Line 257: `risk_amt = total_capital * 10000 * (risk_per_trade / 100)`
(capital is entered in units of 10⁴ currency). -/
def risk_amt (total_capital risk_per_trade : ℚ) : ℚ :=
  total_capital * 10000 * (risk_per_trade / 100)

/-- Line 260: `entry = round_to_tick(pivot + max(0.2 * atr, t), t)` with
`t = tick_size(current_price)`. -/
def brk_entry (df : List Bar) (cp : ℚ) : ℚ :=
  round_to_tick (pivot df + max (0.2 * atr_used cp) (tick_size cp)) (tick_size cp)

/-- Line 261: `stop = round_to_tick(entry - 1.0 * atr, t)`. -/
def brk_stop (df : List Bar) (cp : ℚ) : ℚ :=
  round_to_tick (brk_entry df cp - 1.0 * atr_used cp) (tick_size cp)

/-- Line 264: breakout target `round_to_tick(entry + (3.0 if score>=5 else
2.0)*atr, t)`; `score` aggregates the heuristic signals of lines 148-203. -/
def brk_target (df : List Bar) (cp : ℚ) (score : ℤ) : ℚ :=
  round_to_tick
    (brk_entry df cp + (if 5 ≤ score then (3.0 : ℚ) else 2.0) * atr_used cp)
    (tick_size cp)

/-- Line 265: `lots_brk = int(risk_amt / ((entry - stop) * 1000)) if
(entry-stop)>0 else 0`. -/
def lots_brk (df : List Bar) (cp cap pct : ℚ) : ℤ :=
  if 0 < brk_entry df cp - brk_stop df cp then
    pyInt (risk_amt cap pct / ((brk_entry df cp - brk_stop df cp) * 1000))
  else 0

/-- Line 268: `pb_l = round_to_tick(max(ma20_val, current_price - 0.8 *
atr), t)` (the buy-zone low of the pullback leg). -/
def pb_l (cp : ℚ) : ℚ :=
  round_to_tick (max ma20_val (cp - 0.8 * atr_used cp)) (tick_size cp)

/-- Line 269: `pb_h = round_to_tick(max(pb_l + t, current_price - 0.2 *
atr), t)` (the buy-zone high). -/
def pb_h (cp : ℚ) : ℚ :=
  round_to_tick (max (pb_l cp + tick_size cp) (cp - 0.2 * atr_used cp)) (tick_size cp)

/-- Line 270: `pb_s = round_to_tick(pb_l - 1.2 * atr, t)` (the pullback
stop). -/
def pb_s (cp : ℚ) : ℚ :=
  round_to_tick (pb_l cp - 1.2 * atr_used cp) (tick_size cp)

/-- Line 274: `lots_pb = int(risk_amt / ((pb_h - pb_s) * 1000)) if
(pb_h-pb_s)>0 else 0`. -/
def lots_pb (cp cap pct : ℚ) : ℤ :=
  if 0 < pb_h cp - pb_s cp then
    pyInt (risk_amt cap pct / ((pb_h cp - pb_s cp) * 1000))
  else 0

/-- The two scenario legs of the plan tab (lines 259-275). -/
inductive Leg
  | brk
  | pb
deriving DecidableEq

/-- The stop distance that guards each leg's lot division: `entry - stop`
(line 265) for the breakout leg, `pb_h - pb_s` (line 274) for the pullback
leg. -/
def leg_dist (df : List Bar) (cp : ℚ) : Leg → ℚ
  | .brk => brk_entry df cp - brk_stop df cp
  | .pb => pb_h cp - pb_s cp

/-- The suggested lot count of each leg. -/
def leg_lots (df : List Bar) (cp cap pct : ℚ) : Leg → ℤ
  | .brk => lots_brk df cp cap pct
  | .pb => lots_pb cp cap pct

/-- The failure modes the script can actually surface: line 102 errors on
an empty download, and any exception inside the block (e.g. `iloc[-1]` on
an all-zero-volume frame) is caught at line 295 and shown as a generic
processing failure.  No `InsufficientHistory` variant exists. -/
inductive EngineError
  | noData
  | runtimeError
deriving DecidableEq, Repr

/-- The numbers the plan tab renders (lines 259-275). -/
structure Output where
  current_price : ℚ
  entry : ℚ
  stop : ℚ
  target_brk : ℚ
  lots_brk : ℤ
  pb_low : ℚ
  pb_high : ℚ
  pb_stop : ℚ
  target_pb : ℚ
  lots_pb : ℤ
deriving DecidableEq, Repr

/-- The plan numbers (lines 256-275) for a nonempty filtered frame `df`
and effective current price `cp`. -/
def runPlan (df : List Bar) (cp cap pct : ℚ) (score : ℤ) : Output :=
  { current_price := cp
    entry := brk_entry df cp
    stop := brk_stop df cp
    target_brk := brk_target df cp score
    lots_brk := lots_brk df cp cap pct
    pb_low := pb_l cp
    pb_high := pb_h cp
    pb_stop := pb_s cp
    target_pb := pivot df
    lots_pb := lots_pb cp cap pct }

/-- The request pipeline of lines 102-275.  An empty download fails at
line 102.  The zero-volume filter (line 114) precedes `hist_last`, so an
all-zero-volume frame makes `iloc[-1]` raise, caught at line 295.  Two
further unguarded lookbacks abort short frames before the plan tab is
reached: line 189 reads `df["MA20"].iloc[-5]`, raising `IndexError` for
filtered frames with fewer than 5 rows, and line 202 reads `df.iloc[-6]`
whenever the market-index frame is present with more than 5 rows (the
`idxLong` flag), raising for frames with fewer than 6 rows; both are
caught at line 295 and no plan is produced.  Otherwise the realtime price
falls back to the last close (line 130) and both legs are priced and
sized. -/
def runEngine (df_raw : List Bar) (idxLong : Bool) (rt : Option ℚ)
    (cap pct : ℚ) (score : ℤ) : Except EngineError Output :=
  if df_raw = [] then .error .noData
  else if hdf : filterBars df_raw = [] then .error .runtimeError
  else if (filterBars df_raw).length < 5 then .error .runtimeError
  else if idxLong = true ∧ (filterBars df_raw).length < 6 then .error .runtimeError
  else
    .ok (runPlan (filterBars df_raw)
      (rt.getD (((filterBars df_raw).getLast hdf).close)) cap pct score)

/-- Modelled from the spec: True Range, `TR_t = max(high_t - low_t,
|high_t - close_(t-1)|, |low_t - close_(t-1)|)`, first row falling back to
`high - low`.  Written from the spec's words for comparison with the
code's `ATR14`; no such computation exists in `src/app.py`. -/
def specTrueRangeList : List Bar → List ℚ
  | [] => []
  | b :: rest => (b.high - b.low) :: specTRAux b.close rest
where
  specTRAux (pc : ℚ) : List Bar → List ℚ
    | [] => []
    | b :: rest =>
        max (b.high - b.low) (max |b.high - pc| |b.low - pc|) ::
          specTRAux b.close rest

/-- Modelled from the spec: Wilder-smoothed ATR, `atr_t = atr_(t-1) +
(TR_t - atr_(t-1)) / 14`, seeded by the first True Range value.  Written
from the spec's words for comparison with the code's `ATR14`. -/
def specWilderList (df : List Bar) : List ℚ :=
  match specTrueRangeList df with
  | [] => []
  | tr0 :: rest => tr0 :: wilderAux tr0 rest
where
  wilderAux (prev : ℚ) : List ℚ → List ℚ
    | [] => []
    | tr :: rest => (prev + (tr - prev) / 14) :: wilderAux (prev + (tr - prev) / 14) rest

/-- Modelled from the spec: `specWilderATR df i` is the spec's `atr14` at
row `i`. -/
def specWilderATR (df : List Bar) (i : Nat) : Option ℚ :=
  (specWilderList df).get? i

/-- Modelled from the spec: `pivot_60 = max(high)` over the trailing 60
bars; written from the spec's words for comparison with the code's
252-bar `pivot`. -/
def specPivot60 (df : List Bar) : ℚ :=
  colMax ((tailN 60 df).map Bar.high)

/-! ### Concrete inputs used by counterexamples and witnesses -/

/-- Two bars with a large overnight gap: range `high - low` is 1 on both
days, but the second day's True Range is 10 because of the gap over the
prior close. -/
def dfGap : List Bar :=
  [⟨10, 9, 10, 1, 1⟩, ⟨20, 19, 39/2, 1, 1⟩]

/-- A single bar with high 100.6; with a live price of 99 the breakout
entry rounds (tick 0.1) into the ≥ 100 band where the tick is 0.5. -/
def dfBand : List Bar :=
  [⟨503/5, 498/5, 99, 1, 1⟩]

/-- Six identical sub-cent bars (enough rows for the 5/6-bar lookbacks of
lines 189/202): at price 0.01 the 2.5 % ATR floor (0.00025) is smaller
than half a tick (0.0005), so rounding collapses stop distances. -/
def dfTiny6 : List Bar :=
  [⟨1/100, 1/100, 1/100, 1, 1⟩, ⟨1/100, 1/100, 1/100, 1, 1⟩,
   ⟨1/100, 1/100, 1/100, 1, 1⟩, ⟨1/100, 1/100, 1/100, 1, 1⟩,
   ⟨1/100, 1/100, 1/100, 1, 1⟩, ⟨1/100, 1/100, 1/100, 1, 1⟩]

/-- Two wide-range bars (range 10 each), giving a last-row `ATR14` column
value of 10. -/
def dfWide : List Bar :=
  [⟨20, 10, 15, 1, 1⟩, ⟨20, 10, 15, 1, 1⟩]

/-- A 40-bar series (the spec's insufficient-history scenario). -/
def bars40 : List Bar :=
  List.replicate 40 ⟨11, 10, 10, 5, 550000⟩

/-- A three-bar series whose middle bar has `volume == 0`. -/
def dfZeroVol : List Bar :=
  [⟨11, 10, 10, 1, 10000⟩, ⟨11, 10, 11, 0, 0⟩, ⟨12, 11, 11, 2, 22000⟩]

/-- `dfZeroVol` with the zero-volume bar removed by hand. -/
def dfZeroVolRemoved : List Bar :=
  [⟨11, 10, 10, 1, 10000⟩, ⟨12, 11, 11, 2, 22000⟩]

/-- Two bars with rising closes, used to witness the OBV increment law. -/
def dfObv : List Bar :=
  [⟨11, 10, 10, 3, 1⟩, ⟨12, 11, 11, 7, 1⟩]

/-! ### Helper lemmas about the rounding primitives -/

theorem floor_le_pyRound (q : ℚ) : ⌊q⌋ ≤ pyRound q := by
  unfold pyRound
  split_ifs <;> omega

theorem pyRound_le_floor_add_one (q : ℚ) : pyRound q ≤ ⌊q⌋ + 1 := by
  unfold pyRound
  split_ifs <;> omega

theorem pyRound_intCast (k : ℤ) : pyRound (k : ℚ) = k := by
  unfold pyRound
  rw [Int.floor_intCast, sub_self]
  norm_num

theorem pyRound_mono {a b : ℚ} (hab : a ≤ b) : pyRound a ≤ pyRound b := by
  rcases lt_or_le ⌊a⌋ ⌊b⌋ with hlt | hle
  · have h1 := pyRound_le_floor_add_one a
    have h2 := floor_le_pyRound b
    omega
  · have hf : ⌊b⌋ = ⌊a⌋ := le_antisymm hle (Int.floor_mono hab)
    have hfr : a - (⌊a⌋ : ℚ) ≤ b - (⌊a⌋ : ℚ) := by linarith
    unfold pyRound
    rw [hf]
    split_ifs <;> first | omega | linarith

theorem pyInt_eq_floor {q : ℚ} (h : 0 ≤ q) : pyInt q = ⌊q⌋ := if_pos h

theorem round_to_tick_eq_mul (x : ℚ) {t : ℚ} (ht : t ≠ 0) :
    round_to_tick x t = (pyRound (x / t) : ℚ) * t := if_neg ht

theorem round_to_tick_multiple (x t : ℚ) :
    ∃ k : ℤ, round_to_tick x t = k * t := by
  unfold round_to_tick
  split_ifs with h
  · exact ⟨0, by simp [h]⟩
  · exact ⟨pyRound (x / t), rfl⟩

theorem round_to_tick_int_mul {t : ℚ} (ht : 0 < t) (k : ℤ) :
    round_to_tick (k * t) t = k * t := by
  rw [round_to_tick_eq_mul _ ht.ne', mul_div_assoc, div_self ht.ne', mul_one,
    pyRound_intCast]

theorem round_to_tick_mono {x y t : ℚ} (ht : 0 < t) (hxy : x ≤ y) :
    round_to_tick x t ≤ round_to_tick y t := by
  rw [round_to_tick_eq_mul _ ht.ne', round_to_tick_eq_mul _ ht.ne']
  have h1 : x / t ≤ y / t := by gcongr
  have h2 : ((pyRound (x / t) : ℤ) : ℚ) ≤ ((pyRound (y / t) : ℤ) : ℚ) := by
    exact_mod_cast pyRound_mono h1
  exact mul_le_mul_of_nonneg_right h2 ht.le

theorem tick_size_pos (p : ℚ) : 0 < tick_size p := by
  unfold tick_size
  split_ifs <;> norm_num

theorem atr_used_nonneg (cp : ℚ) : 0 ≤ atr_used cp :=
  le_max_left 0 (cp * 0.025)

theorem lots_mul_le (R d : ℚ) (hR : 0 ≤ R) (hd : 0 < d) :
    (pyInt (R / d) : ℚ) * d ≤ R ∧ pyInt (R / d) = ⌊R / d⌋ := by
  have hq : 0 ≤ R / d := div_nonneg hR hd.le
  have h1 : pyInt (R / d) = ⌊R / d⌋ := pyInt_eq_floor hq
  refine ⟨?_, h1⟩
  rw [h1]
  have h2 : (⌊R / d⌋ : ℚ) ≤ R / d := Int.floor_le _
  calc (⌊R / d⌋ : ℚ) * d ≤ (R / d) * d := mul_le_mul_of_nonneg_right h2 hd.le
    _ = R := div_mul_cancel₀ _ hd.ne'

/-! ### Claim C1 — ATR14 -/

/-- Claim C1 (counterexample): on `dfGap` the second row's ATR14 column is
1 (the mean of the two `high - low` ranges), while the Wilder-smoothed
True-Range average the claim describes is 23/14: the code's ATR14 ignores
the gap over the prior close and is not Wilder-smoothed. -/
theorem atr14_not_wilder_cex :
    ATR14 dfGap 1 = some 1 ∧ specWilderATR dfGap 1 = some (23/14) ∧
      (1 : ℚ) ≠ 23/14 :=
  ⟨by norm_num [ATR14, rollingMean, windowSum, dfGap],
   by norm_num [specWilderATR, specWilderList, specTrueRangeList,
      specTrueRangeList.specTRAux, specWilderList.wilderAux, dfGap],
   by norm_num⟩

/-- Claim C1 (amended): the ATR14 value attached to row `i`, when defined,
is the plain arithmetic rolling mean of the bar range `high - low` over
the trailing `min 14 (len df)` rows — neither Wilder-smoothed nor based on
the prior close. -/
theorem atr14_plain_rolling_mean (df : List Bar) (i : Nat) (a : ℚ)
    (h : ATR14 df i = some a) :
    ((min 14 df.length : ℕ) : ℚ) * a =
      windowSum (df.map fun b => b.high - b.low) (min 14 df.length) i := by
  unfold ATR14 rollingMean at h
  by_cases h0 : min 14 df.length = 0
  · rw [if_pos h0] at h; cases h
  · rw [if_neg h0] at h
    by_cases h1 : i + 1 < min 14 df.length
    · rw [if_pos h1] at h; cases h
    · rw [if_neg h1] at h
      have h2 := Option.some.inj h
      have hw : ((min 14 df.length : ℕ) : ℚ) ≠ 0 := Nat.cast_ne_zero.mpr h0
      rw [← h2, mul_comm, div_mul_cancel₀ _ hw]

/-- Witness for `atr14_plain_rolling_mean` at `dfGap`, row 1. -/
theorem atr14_plain_rolling_mean_witness :
    ATR14 dfGap 1 = some 1 ∧
      ((min 14 dfGap.length : ℕ) : ℚ) * 1 =
        windowSum (dfGap.map fun b => b.high - b.low) (min 14 dfGap.length) 1 :=
  ⟨by norm_num [ATR14, rollingMean, windowSum, dfGap],
   atr14_plain_rolling_mean dfGap 1 1
     (by norm_num [ATR14, rollingMean, windowSum, dfGap])⟩

/-! ### Claim C2 — breakout pricing -/

/-- Claim C2 (counterexample): on `dfBand` with live price 99 the code's
breakout entry is 101.1, but the claimed
`round_to_tick(pivot_60 + one_tick)` is 100.7 — the code adds
`max(0.2*atr, tick)`, not one tick, above a 252-bar (not 60-bar) pivot. -/
theorem breakout_entry_cex :
    brk_entry dfBand 99 = 1011/10 ∧
      round_to_tick (specPivot60 (filterBars dfBand) + tick_size 99)
        (tick_size 99) = 1007/10 ∧
      (1011/10 : ℚ) ≠ 1007/10 :=
  ⟨by norm_num [brk_entry, pivot, tailN, colMax, dfBand, atr_used, safe_float,
      hist_last_get_ATR14, tick_size, round_to_tick, pyRound, max_def],
   by norm_num [specPivot60, tailN, colMax, filterBars, dfBand, tick_size,
      round_to_tick, pyRound],
   by norm_num⟩

/-- Claim C2 (amended): the breakout entry is
`round_to_tick(pivot + max(0.2*atr_eff, tick), tick)` where `pivot` is the
highest high of the trailing 252 filtered bars and
`atr_eff = max 0 (0.025*cp)` (the measured ATR14 never reaches the plan),
and the stop is `round_to_tick(entry - 1.0*atr_eff, tick)`; there is no
slippage buffer. -/
theorem breakout_pricing_amended (df : List Bar) (cp : ℚ) :
    brk_entry df cp =
      round_to_tick (colMax ((tailN 252 df).map Bar.high) +
        max (0.2 * max 0 (cp * 0.025)) (tick_size cp)) (tick_size cp) ∧
    brk_stop df cp =
      round_to_tick (brk_entry df cp - max 0 (cp * 0.025)) (tick_size cp) := by
  constructor
  · rfl
  · simp only [brk_stop, atr_used, hist_last_get_ATR14, safe_float]
    norm_num

/-! ### Claim C6 — tick invariant -/

/-- Claim C6 (counterexample): on `dfBand` with live price 99 (tick 0.1)
the breakout entry 101.1 lands in the ≥ 100 band whose tick is 0.5, and
101.1 is not an integer multiple of 0.5 — prices are rounded with the
current price's tick, not their own level's tick. -/
theorem tick_invariant_cex :
    brk_entry dfBand 99 = 1011/10 ∧ tick_size (1011/10) = 1/2 ∧
      ¬ ∃ k : ℤ, (1011/10 : ℚ) = k * (1/2) := by
  refine ⟨by norm_num [brk_entry, pivot, tailN, colMax, dfBand, atr_used,
      safe_float, hist_last_get_ATR14, tick_size, round_to_tick, pyRound,
      max_def],
    by norm_num [tick_size], ?_⟩
  rintro ⟨k, hk⟩
  have h5 : ((5 * k : ℤ) : ℚ) = 1011 := by push_cast; linarith
  have h5' : (5 * k : ℤ) = 1011 := by exact_mod_cast h5
  omega

/-- Claim C6 (amended): every tick-rounded plan price (breakout
entry/stop/target and the pullback zone bounds and stop) is an integer
multiple of `tick_size current_price`; the invariant relative to the
price's own band does not hold in general, and the pullback target (the
raw pivot) is not tick-rounded at all. -/
theorem prices_multiple_of_current_tick (df : List Bar) (cp : ℚ) (score : ℤ) :
    (∃ k : ℤ, brk_entry df cp = k * tick_size cp) ∧
    (∃ k : ℤ, brk_stop df cp = k * tick_size cp) ∧
    (∃ k : ℤ, brk_target df cp score = k * tick_size cp) ∧
    (∃ k : ℤ, pb_l cp = k * tick_size cp) ∧
    (∃ k : ℤ, pb_h cp = k * tick_size cp) ∧
    (∃ k : ℤ, pb_s cp = k * tick_size cp) :=
  ⟨round_to_tick_multiple _ _, round_to_tick_multiple _ _,
    round_to_tick_multiple _ _, round_to_tick_multiple _ _,
    round_to_tick_multiple _ _, round_to_tick_multiple _ _⟩

/-! ### Claim C9 — the volatility figure the plan actually uses -/

/-- Claim C9 (code-bug evaluation): on `dfWide` the last row's ATR14
column is 10, yet with live price 100 the plan's volatility figure is
2.5 = 0.025*100, not `max 10 2.5 = 10`: `hist_last` was captured at line
116 before the ATR14 column was attached, so `hist_last.get("ATR14")` is
`None` and the floor always wins.  The wrong figure propagates into the
stop distance. -/
theorem atr_floor_dead_read_bug :
    ATR14 dfWide (dfWide.length - 1) = some 10 ∧
    atr_used 100 = 5/2 ∧
    atr_used 100 ≠ max 10 ((100 : ℚ) * 0.025) ∧
    brk_stop dfWide 100 = brk_entry dfWide 100 - 5/2 :=
  ⟨by norm_num [ATR14, rollingMean, windowSum, dfWide],
   by norm_num [atr_used, safe_float, hist_last_get_ATR14, max_def],
   by norm_num [atr_used, safe_float, hist_last_get_ATR14, max_def],
   by norm_num [brk_stop, brk_entry, pivot, tailN, colMax, dfWide, atr_used,
      safe_float, hist_last_get_ATR14, tick_size, round_to_tick, pyRound,
      max_def]⟩

/-! ### Claim C3 — no InsufficientHistory failure -/

/-- Claim C3 (counterexample): a 40-bar series does not fail — the engine
returns a full plan (here with index data present, `idxLong = true`).  No
`InsufficientHistory` failure exists in the code (`EngineError` has only
the empty-download and generic-runtime cases). -/
theorem forty_bar_series_ok_cex :
    (runEngine bars40 true none 100 2 0).isOk = true := by rfl

/-- Claim C3 (amended): the engine has no InsufficientHistory check.  Any
series whose volume-filtered frame has at least 6 rows produces a full
plan, with the last row's MA20 / ATR14 / OBV_MA10 all defined because
each rolling window is shrunk to `min(window, len(df))` (lines 121-127)
instead of raising; frames with fewer than 5 rows always abort, but with
the generic caught runtime failure of the unguarded `iloc[-5]` lookback
(line 189), not an InsufficientHistory error. -/
theorem no_insufficient_history_amended (xs : List Bar) (idxLong : Bool)
    (rt : Option ℚ) (cap pct : ℚ) (score : ℤ)
    (h : 6 ≤ (filterBars xs).length) :
    (runEngine xs idxLong rt cap pct score).isOk = true ∧
    MA20 (filterBars xs) ((filterBars xs).length - 1) ≠ none ∧
    ATR14 (filterBars xs) ((filterBars xs).length - 1) ≠ none ∧
    OBV_MA10 (filterBars xs) ((filterBars xs).length - 1) ≠ none ∧
    (∀ ys : List Bar, (filterBars ys).length < 5 →
      (runEngine ys idxLong rt cap pct score).isOk = false) := by
  have hne : filterBars xs ≠ [] := by
    intro he
    rw [he] at h
    simp at h
  have hxs : xs ≠ [] := by
    intro he
    subst he
    exact hne rfl
  have hlen : 0 < (filterBars xs).length := List.length_pos.mpr hne
  refine ⟨?_, ?_, ?_, ?_, ?_⟩
  · have h4 : ¬ (idxLong = true ∧ (filterBars xs).length < 6) := by
      rintro ⟨-, hlt⟩
      omega
    unfold runEngine
    rw [if_neg hxs, dif_neg hne,
      if_neg (by omega : ¬ (filterBars xs).length < 5), if_neg h4]
    rfl
  · unfold MA20 rollingMean
    rw [if_neg (by omega), if_neg (by omega)]
    simp
  · unfold ATR14 rollingMean
    rw [if_neg (by omega), if_neg (by omega)]
    simp
  · unfold OBV_MA10 rollingMean
    rw [if_neg (by omega), if_neg (by omega)]
    simp
  · intro ys hys
    unfold runEngine
    by_cases h0 : ys = []
    · rw [if_pos h0]
      rfl
    · rw [if_neg h0]
      by_cases h1 : filterBars ys = []
      · rw [dif_pos h1]
        rfl
      · rw [dif_neg h1, if_pos hys]
        rfl

/-- Witness for `no_insufficient_history_amended` at the 40-bar series. -/
theorem no_insufficient_history_amended_witness :
    6 ≤ (filterBars bars40).length ∧
      ((runEngine bars40 true none 100 2 0).isOk = true ∧
       MA20 (filterBars bars40) ((filterBars bars40).length - 1) ≠ none ∧
       ATR14 (filterBars bars40) ((filterBars bars40).length - 1) ≠ none ∧
       OBV_MA10 (filterBars bars40) ((filterBars bars40).length - 1) ≠ none ∧
       (∀ ys : List Bar, (filterBars ys).length < 5 →
         (runEngine ys true none 100 2 0).isOk = false)) :=
  ⟨by simp [filterBars, bars40],
   no_insufficient_history_amended bars40 true none 100 2 0
     (by simp [filterBars, bars40])⟩

/-! ### Claim C4 — sizing bound -/

/-- Claim C4: every leg with a nonzero lot count respects the risk budget:
`lots * (entry - stop) * 1000 ≤ risk_amt`, and the lot count is the floor
of the budget over the per-lot risk.  The code has no slippage buffer, so
the claim's `slippage_buffer` term is 0 here. -/
theorem sizing_bound (df : List Bar) (cp cap pct : ℚ)
    (hcap : 0 ≤ cap) (hpct : 0 ≤ pct) :
    (lots_brk df cp cap pct ≠ 0 →
      (lots_brk df cp cap pct : ℚ) * ((brk_entry df cp - brk_stop df cp) * 1000) ≤
          risk_amt cap pct ∧
        lots_brk df cp cap pct =
          ⌊risk_amt cap pct / ((brk_entry df cp - brk_stop df cp) * 1000)⌋) ∧
    (lots_pb cp cap pct ≠ 0 →
      (lots_pb cp cap pct : ℚ) * ((pb_h cp - pb_s cp) * 1000) ≤ risk_amt cap pct ∧
        lots_pb cp cap pct = ⌊risk_amt cap pct / ((pb_h cp - pb_s cp) * 1000)⌋) := by
  have hR : 0 ≤ risk_amt cap pct := by
    unfold risk_amt
    exact mul_nonneg (mul_nonneg hcap (by norm_num)) (div_nonneg hpct (by norm_num))
  constructor
  · intro hne
    unfold lots_brk at hne ⊢
    by_cases hd : 0 < brk_entry df cp - brk_stop df cp
    · rw [if_pos hd] at hne ⊢
      exact lots_mul_le (risk_amt cap pct) _ hR (mul_pos hd (by norm_num))
    · rw [if_neg hd] at hne
      exact absurd rfl hne
  · intro hne
    unfold lots_pb at hne ⊢
    by_cases hd : 0 < pb_h cp - pb_s cp
    · rw [if_pos hd] at hne ⊢
      exact lots_mul_le (risk_amt cap pct) _ hR (mul_pos hd (by norm_num))
    · rw [if_neg hd] at hne
      exact absurd rfl hne

/-- Witness for `sizing_bound` at `dfBand`, live price 99, capital 100,
risk 2 % (there `lots_brk = 8` and the budget is 20000). -/
theorem sizing_bound_witness :
    (0:ℚ) ≤ 100 ∧ (0:ℚ) ≤ 2 ∧
      ((lots_brk dfBand 99 100 2 ≠ 0 →
        (lots_brk dfBand 99 100 2 : ℚ) *
            ((brk_entry dfBand 99 - brk_stop dfBand 99) * 1000) ≤ risk_amt 100 2 ∧
          lots_brk dfBand 99 100 2 =
            ⌊risk_amt 100 2 / ((brk_entry dfBand 99 - brk_stop dfBand 99) * 1000)⌋) ∧
       (lots_pb 99 100 2 ≠ 0 →
        (lots_pb 99 100 2 : ℚ) * ((pb_h 99 - pb_s 99) * 1000) ≤ risk_amt 100 2 ∧
          lots_pb 99 100 2 = ⌊risk_amt 100 2 / ((pb_h 99 - pb_s 99) * 1000)⌋)) :=
  ⟨by norm_num, by norm_num,
   sizing_bound dfBand 99 100 2 (by norm_num) (by norm_num)⟩

/-! ### Claim C5 — degenerate stop distance -/

/-- Claim C5: when a leg's stop distance is zero or negative its lot count
is 0 (the guarded division of lines 265/274 takes its `else 0` branch),
and — for frames long enough (≥ 6 rows) to get past the unguarded
short-frame lookbacks of lines 189/202 — the request still succeeds: the
plan is reported with the zero lot count and no exception or division
error arises. -/
theorem degenerate_leg_lots_zero (df : List Bar) (idxLong : Bool)
    (cp cap pct : ℚ) (score : ℤ) (leg : Leg)
    (hlen : 6 ≤ (filterBars df).length) (h : leg_dist df cp leg ≤ 0) :
    leg_lots df cp cap pct leg = 0 ∧
      (runEngine df idxLong (some cp) cap pct score).isOk = true := by
  have hne : filterBars df ≠ [] := by
    intro he
    rw [he] at hlen
    simp at hlen
  have hdf : df ≠ [] := by
    intro he
    subst he
    exact hne rfl
  constructor
  · cases leg with
    | brk =>
      show lots_brk df cp cap pct = 0
      unfold lots_brk
      exact if_neg (not_lt.mpr h)
    | pb =>
      show lots_pb cp cap pct = 0
      unfold lots_pb
      exact if_neg (not_lt.mpr h)
  · have h4 : ¬ (idxLong = true ∧ (filterBars df).length < 6) := by
      rintro ⟨-, hlt⟩
      omega
    unfold runEngine
    rw [if_neg hdf, dif_neg hne,
      if_neg (by omega : ¬ (filterBars df).length < 5), if_neg h4]
    rfl

/-- Witness for `degenerate_leg_lots_zero`: on the 6-bar frame `dfTiny6`
with live price 0.01 the breakout entry and stop coincide (both 0.011),
so the breakout leg is degenerate, its lot count is 0, and the request
still succeeds. -/
theorem degenerate_leg_lots_zero_witness :
    6 ≤ (filterBars dfTiny6).length ∧ leg_dist dfTiny6 (1/100) Leg.brk ≤ 0 ∧
      (leg_lots dfTiny6 (1/100) 100 2 Leg.brk = 0 ∧
        (runEngine dfTiny6 true (some (1/100)) 100 2 0).isOk = true) :=
  ⟨by norm_num [filterBars, dfTiny6],
   by norm_num [leg_dist, brk_entry, brk_stop, pivot, tailN, colMax, dfTiny6,
      atr_used, safe_float, hist_last_get_ATR14, tick_size, round_to_tick,
      pyRound, max_def],
   degenerate_leg_lots_zero dfTiny6 true (1/100) 100 2 0 Leg.brk
     (by norm_num [filterBars, dfTiny6])
     (by norm_num [leg_dist, brk_entry, brk_stop, pivot, tailN, colMax, dfTiny6,
        atr_used, safe_float, hist_last_get_ATR14, tick_size, round_to_tick,
        pyRound, max_def])⟩

/-! ### Claim C10 — pullback leg ordering -/

/-- Claim C10 (counterexample): at live price 0.01 (positive, with
positive effective ATR 0.00025) the pullback stop does not sit strictly
below the buy-zone low: both round to 0.01, because 1.2 ATR is below half
a tick there. -/
theorem pullback_strict_order_cex :
    (0:ℚ) < 1/100 ∧ 0 < atr_used (1/100) ∧
      pb_s (1/100) = pb_l (1/100) ∧ ¬ pb_s (1/100) < pb_l (1/100) := by
  have hs : pb_s (1/100) = 1/100 := by
    norm_num [pb_s, pb_l, ma20_val, safe_float, hist_last_get_MA20, atr_used,
      hist_last_get_ATR14, tick_size, round_to_tick, pyRound, max_def]
  have hl : pb_l (1/100) = 1/100 := by
    norm_num [pb_l, ma20_val, safe_float, hist_last_get_MA20, atr_used,
      hist_last_get_ATR14, tick_size, round_to_tick, pyRound, max_def]
  refine ⟨by norm_num,
    by norm_num [atr_used, safe_float, hist_last_get_ATR14, max_def], ?_, ?_⟩
  · rw [hs, hl]
  · rw [hs, hl]
    exact lt_irrefl _

/-- Claim C10 (amended): for every live price the pullback levels satisfy
`pb_s ≤ pb_l < pb_h` (the strict stop-below-zone inequality can collapse
to equality by rounding), the sizing denominator `pb_h - pb_s` is at least
one tick hence strictly positive, and the guarded division of line 274
always takes its division branch. -/
theorem pullback_order_amended (cp cap pct : ℚ) :
    pb_s cp ≤ pb_l cp ∧ pb_l cp < pb_h cp ∧ 0 < pb_h cp - pb_s cp ∧
      lots_pb cp cap pct = pyInt (risk_amt cap pct / ((pb_h cp - pb_s cp) * 1000)) := by
  have ht : 0 < tick_size cp := tick_size_pos cp
  obtain ⟨k, hk⟩ :=
    round_to_tick_multiple (max ma20_val (cp - 0.8 * atr_used cp)) (tick_size cp)
  have hk' : pb_l cp = (k : ℚ) * tick_size cp := hk
  have hs : pb_s cp ≤ pb_l cp := by
    have h1 : pb_l cp - 1.2 * atr_used cp ≤ pb_l cp := by
      have h2 := atr_used_nonneg cp
      linarith
    have h3 : round_to_tick (pb_l cp - 1.2 * atr_used cp) (tick_size cp) ≤
        round_to_tick (pb_l cp) (tick_size cp) := round_to_tick_mono ht h1
    have h4 : round_to_tick (pb_l cp) (tick_size cp) = pb_l cp := by
      rw [hk']
      exact round_to_tick_int_mul ht k
    calc pb_s cp
        = round_to_tick (pb_l cp - 1.2 * atr_used cp) (tick_size cp) := rfl
      _ ≤ round_to_tick (pb_l cp) (tick_size cp) := h3
      _ = pb_l cp := h4
  have hh : pb_l cp + tick_size cp ≤ pb_h cp := by
    have h5 : pb_l cp + tick_size cp = ((k + 1 : ℤ) : ℚ) * tick_size cp := by
      rw [hk']
      push_cast
      ring
    have h6 : round_to_tick (pb_l cp + tick_size cp) (tick_size cp) =
        pb_l cp + tick_size cp := by
      rw [h5, round_to_tick_int_mul ht]
    have h7 : round_to_tick (pb_l cp + tick_size cp) (tick_size cp) ≤
        round_to_tick (max (pb_l cp + tick_size cp) (cp - 0.2 * atr_used cp))
          (tick_size cp) :=
      round_to_tick_mono ht (le_max_left _ _)
    calc pb_l cp + tick_size cp
        = round_to_tick (pb_l cp + tick_size cp) (tick_size cp) := h6.symm
      _ ≤ pb_h cp := h7
  have hlh : pb_l cp < pb_h cp := by linarith
  have hpos : 0 < pb_h cp - pb_s cp := by linarith
  refine ⟨hs, hlh, hpos, ?_⟩
  unfold lots_pb
  rw [if_pos hpos]

/-! ### Claim C7 — zero-volume rows are filtered before indicators -/

theorem filter_eraseIdx_eq (p : Bar → Bool) (xs : List Bar) :
    ∀ (i : Nat) (h : i < xs.length), p (xs.get ⟨i, h⟩) = false →
      (xs.eraseIdx i).filter p = xs.filter p := by
  induction xs with
  | nil =>
    intro i h
    simp at h
  | cons x t ih =>
    intro i h hp
    cases i with
    | zero =>
      simp only [List.get] at hp
      simp [List.eraseIdx, List.filter_cons, hp]
    | succ k =>
      have hk : k < t.length := by simpa using h
      have ht := ih k hk (by simpa using hp)
      simp [List.eraseIdx, List.filter_cons, ht]

/-- Claim C7: removing a zero-volume bar by hand changes nothing — the
`df[df['vol'] > 0]` filter of line 114 already drops it before any
indicator is computed, so the filtered frame and every rolling statistic
(MA20, volume/turnover averages, ATR14, OBV, OBV_MA10) agree with those of
the hand-edited series. -/
theorem zero_volume_filtering (xs : List Bar) (i : Nat) (h : i < xs.length)
    (hv : (xs.get ⟨i, h⟩).vol = 0) :
    filterBars (xs.eraseIdx i) = filterBars xs ∧
    (∀ j, MA20 (filterBars (xs.eraseIdx i)) j = MA20 (filterBars xs) j) ∧
    (∀ j, MA20_Vol (filterBars (xs.eraseIdx i)) j = MA20_Vol (filterBars xs) j) ∧
    (∀ j, MA20_Amount (filterBars (xs.eraseIdx i)) j =
      MA20_Amount (filterBars xs) j) ∧
    (∀ j, ATR14 (filterBars (xs.eraseIdx i)) j = ATR14 (filterBars xs) j) ∧
    OBV (filterBars (xs.eraseIdx i)) = OBV (filterBars xs) ∧
    (∀ j, OBV_MA10 (filterBars (xs.eraseIdx i)) j = OBV_MA10 (filterBars xs) j) := by
  have hf : filterBars (xs.eraseIdx i) = filterBars xs := by
    unfold filterBars
    refine filter_eraseIdx_eq _ xs i h ?_
    rw [hv]
    rfl
  exact ⟨hf, fun j => by rw [hf], fun j => by rw [hf], fun j => by rw [hf],
    fun j => by rw [hf], by rw [hf], fun j => by rw [hf]⟩

/-- Witness for `zero_volume_filtering` at `dfZeroVol` (a zero-volume bar
in the middle), whose hand-edited counterpart is `dfZeroVolRemoved`. -/
theorem zero_volume_filtering_witness :
    1 < dfZeroVol.length ∧ (dfZeroVol.get ⟨1, by norm_num [dfZeroVol]⟩).vol = 0 ∧
      dfZeroVol.eraseIdx 1 = dfZeroVolRemoved ∧
      (filterBars (dfZeroVol.eraseIdx 1) = filterBars dfZeroVol ∧
       (∀ j, MA20 (filterBars (dfZeroVol.eraseIdx 1)) j =
         MA20 (filterBars dfZeroVol) j) ∧
       (∀ j, MA20_Vol (filterBars (dfZeroVol.eraseIdx 1)) j =
         MA20_Vol (filterBars dfZeroVol) j) ∧
       (∀ j, MA20_Amount (filterBars (dfZeroVol.eraseIdx 1)) j =
         MA20_Amount (filterBars dfZeroVol) j) ∧
       (∀ j, ATR14 (filterBars (dfZeroVol.eraseIdx 1)) j =
         ATR14 (filterBars dfZeroVol) j) ∧
       OBV (filterBars (dfZeroVol.eraseIdx 1)) = OBV (filterBars dfZeroVol) ∧
       (∀ j, OBV_MA10 (filterBars (dfZeroVol.eraseIdx 1)) j =
         OBV_MA10 (filterBars dfZeroVol) j)) :=
  ⟨by norm_num [dfZeroVol], by norm_num [dfZeroVol], by norm_num [dfZeroVol,
    dfZeroVolRemoved, List.eraseIdx],
   zero_volume_filtering dfZeroVol 1 (by norm_num [dfZeroVol])
     (by norm_num [dfZeroVol])⟩

/-! ### Claim C8 — OBV increments -/

theorem obvAux_getD_succ (rest : List Bar) :
    ∀ (pc acc : ℚ) (j : Nat), j + 1 < rest.length →
      (obvAux pc acc rest).getD (j+1) 0 - (obvAux pc acc rest).getD j 0 =
        sign3 ((rest.getD (j+1) default).close - (rest.getD j default).close) *
          (rest.getD (j+1) default).vol := by
  induction rest with
  | nil =>
    intro pc acc j hj
    simp at hj
  | cons b t ih =>
    intro pc acc j hj
    cases j with
    | zero =>
      cases t with
      | nil => simp at hj
      | cons c t' =>
        simp only [obvAux, List.getD_cons_succ, List.getD_cons_zero]
        ring
    | succ k =>
      have hk : k + 1 < t.length := by simpa using hj
      have hrec := ih b.close (acc + sign3 (b.close - pc) * b.vol) k hk
      simpa only [obvAux, List.getD_cons_succ] using hrec

theorem OBV_getD_succ (xs : List Bar) (i : Nat) (h : i + 1 < xs.length) :
    (OBV xs).getD (i+1) 0 - (OBV xs).getD i 0 =
      sign3 ((xs.getD (i+1) default).close - (xs.getD i default).close) *
        (xs.getD (i+1) default).vol := by
  cases xs with
  | nil => simp at h
  | cons b t =>
    cases i with
    | zero =>
      cases t with
      | nil => simp at h
      | cons c t' =>
        simp only [OBV, obvAux, List.getD_cons_succ, List.getD_cons_zero]
        ring
    | succ k =>
      have hk : k + 1 < t.length := by simpa using h
      have hrec := obvAux_getD_succ t b.close 0 k hk
      simpa only [OBV, List.getD_cons_succ] using hrec

/-- Claim C8: for every consecutive pair of rows the OBV increment is
`+volume` when the close rose, `-volume` when it fell, and 0 when it is
unchanged (line 126). -/
theorem obv_increment (xs : List Bar) (i : Nat) (h : i + 1 < xs.length) :
    ((xs.getD i default).close < (xs.getD (i+1) default).close →
      (OBV xs).getD (i+1) 0 - (OBV xs).getD i 0 = (xs.getD (i+1) default).vol) ∧
    ((xs.getD (i+1) default).close < (xs.getD i default).close →
      (OBV xs).getD (i+1) 0 - (OBV xs).getD i 0 = -(xs.getD (i+1) default).vol) ∧
    ((xs.getD (i+1) default).close = (xs.getD i default).close →
      (OBV xs).getD (i+1) 0 - (OBV xs).getD i 0 = 0) := by
  have key := OBV_getD_succ xs i h
  refine ⟨?_, ?_, ?_⟩
  · intro hc
    rw [key]
    unfold sign3
    rw [if_pos (sub_pos.mpr hc), one_mul]
  · intro hc
    rw [key]
    unfold sign3
    rw [if_neg (not_lt.mpr (sub_nonpos.mpr hc.le)), if_pos (sub_neg.mpr hc)]
    ring
  · intro hc
    rw [key, sub_eq_zero_of_eq hc]
    norm_num [sign3]

/-- Witness for `obv_increment` at `dfObv`, rows 0 and 1 (a rising close:
the increment equals the second row's volume). -/
theorem obv_increment_witness :
    0 + 1 < dfObv.length ∧
      (((dfObv.getD 0 default).close < (dfObv.getD (0+1) default).close →
        (OBV dfObv).getD (0+1) 0 - (OBV dfObv).getD 0 0 =
          (dfObv.getD (0+1) default).vol) ∧
       ((dfObv.getD (0+1) default).close < (dfObv.getD 0 default).close →
        (OBV dfObv).getD (0+1) 0 - (OBV dfObv).getD 0 0 =
          -(dfObv.getD (0+1) default).vol) ∧
       ((dfObv.getD (0+1) default).close = (dfObv.getD 0 default).close →
        (OBV dfObv).getD (0+1) 0 - (OBV dfObv).getD 0 0 = 0)) :=
  ⟨by norm_num [dfObv], obv_increment dfObv 0 (by norm_num [dfObv])⟩

end StockApp
